import Mathlib

/-!
Verification of the `lmacfy` Answer Service (src/app.py).

Python `str` values are modelled as their UTF-8 byte sequences, of type
`List Nat` with every byte below 256.  All fixed strings appearing in
src/app.py are ASCII, so their byte sequences are the lists of their
character codes.  The remote chat-completion call is external: its outcome
(a first-choice answer text, or one of the `openai` exception classes
handled in src/app.py) is an explicit input to the model, and the requests
the handler sends to it are returned alongside the rendering so that the
number and content of outbound calls is visible in the model.
-/

namespace Lmacfy

/-- Byte strings: a Python `str` is modelled as its UTF-8 byte sequence. -/
abbrev Bytes := List Nat

/-- Byte sequence of an ASCII string literal (every fixed string in
src/app.py is ASCII, where UTF-8 bytes coincide with character codes). -/
def strBytes (s : String) : Bytes :=
  s.data.map Char.toNat

/-- User-facing message raised for `openai.RateLimitError` (src/app.py line 64). -/
def rateLimitMsg : Bytes :=
  strBytes "API rate limit exceeded. Please try again later."

/-- User-facing message raised for `openai.AuthenticationError` (src/app.py line 67). -/
def authFailedMsg : Bytes :=
  strBytes "API authentication failed. Please check your API key."

/-- User-facing message raised for `openai.APIConnectionError` (src/app.py line 70). -/
def connectionMsg : Bytes :=
  strBytes "Unable to connect to OpenAI API. Please check your internet connection."

/-- User-facing message raised for any other exception (src/app.py line 73). -/
def unknownMsg : Bytes :=
  strBytes "An unexpected error occurred. Please try again."

/-- Message of the `ValueError` raised at startup when no API key is set
(src/app.py line 24). -/
def missingKeyMsg : Bytes :=
  strBytes "OPENAI_API_KEY environment variable is required. Please set it in your environment or .env file."

/-- Outcome of the external `client.chat.completions.create` call
(src/app.py lines 50-58): either a response whose first choice carries the
answer text (`response.choices[0].message.content`, line 59), or one of the
exception classes distinguished by the handlers at lines 62-73, each
carrying provider-supplied detail text. -/
inductive RemoteOutcome where
  | success (answer : Bytes)
  | rateLimitError (detail : Bytes)
  | authenticationError (detail : Bytes)
  | apiConnectionError (detail : Bytes)
  | otherError (detail : Bytes)
deriving DecidableEq

/-- Default model identifier `OPENAI_MODEL` (src/app.py line 29, default case). -/
def OPENAI_MODEL : Bytes := strBytes "gpt-4o-mini"

/-- One role-tagged message of the outbound chat-completion request. -/
structure ChatMessage where
  role : Bytes
  content : Bytes
deriving DecidableEq

/-- The outbound chat-completion request (src/app.py lines 50-58): model,
message list, `max_tokens` bound and sampling temperature (0.7, held as the
exact rational 7/10). -/
structure ChatRequest where
  model : Bytes
  messages : List ChatMessage
  max_tokens : Nat
  temperature : ℚ
deriving DecidableEq

/-- The single request `get_chatgpt_answer` builds for a question
(src/app.py lines 50-58). -/
def chatRequest (question : Bytes) : ChatRequest where
  model := OPENAI_MODEL
  messages :=
    [⟨strBytes "system", strBytes "You are a helpful assistant."⟩,
     ⟨strBytes "user", question⟩]
  max_tokens := 500
  temperature := 7/10

/-- `get_chatgpt_answer` (src/app.py lines 33-73): on success, returns the
first choice text unmodified (line 61); each handled exception class is
re-raised as a generic `Exception` carrying one of the four fixed messages
(lines 62-73).  The provider detail is logged but never enters the result. -/
def get_chatgpt_answer (question : Bytes) (outcome : RemoteOutcome) :
    Except Bytes Bytes :=
  match question, outcome with
  | _, .success answer => .ok answer
  | _, .rateLimitError _ => .error rateLimitMsg
  | _, .authenticationError _ => .error authFailedMsg
  | _, .apiConnectionError _ => .error connectionMsg
  | _, .otherError _ => .error unknownMsg

/-- Is the byte an ASCII alphanumeric or one of `_ . - ~`?  These are the
bytes `urllib.parse.quote_plus` leaves unescaped when called with the empty
`safe` set, as `urlencode` does (src/app.py line 96). -/
def isSafeByte (b : Nat) : Bool :=
  (48 ≤ b && b ≤ 57) || (65 ≤ b && b ≤ 90) || (97 ≤ b && b ≤ 122) ||
    b == 95 || b == 46 || b == 45 || b == 126

/-- Uppercase hexadecimal digit character code for a value below 16. -/
def hexDigit (n : Nat) : Nat :=
  if n < 10 then 48 + n else 55 + n

/-- `urllib.parse.quote_plus` on a byte sequence: space (32) becomes
`+` (43), safe bytes pass through, every other byte becomes `%` followed
by two uppercase hex digits. -/
def quote_plus : Bytes → Bytes
  | [] => []
  | b :: bs =>
    (if b = 32 then [43]
     else if isSafeByte b then [b]
     else [37, hexDigit (b / 16), hexDigit (b % 16)]) ++ quote_plus bs

/-- Value of a hexadecimal digit character code, either case. -/
def hexVal (c : Nat) : Option Nat :=
  if 48 ≤ c ∧ c ≤ 57 then some (c - 48)
  else if 65 ≤ c ∧ c ≤ 70 then some (c - 55)
  else if 97 ≤ c ∧ c ≤ 102 then some (c - 87)
  else none

/-- `urllib.parse.unquote_plus` on a byte sequence, as applied by the query
parsing behind `request.args` (src/app.py line 85): `+` (43) becomes space,
`%` followed by two hex digits becomes the denoted byte, and a `%` not
followed by two hex digits is kept literally. -/
def unquote_plus : Bytes → Bytes
  | [] => []
  | b :: h :: l :: rest =>
    if b = 43 then 32 :: unquote_plus (h :: l :: rest)
    else if b = 37 then
      match hexVal h, hexVal l with
      | some hi, some lo => (16 * hi + lo) :: unquote_plus rest
      | _, _ => 37 :: unquote_plus (h :: l :: rest)
    else b :: unquote_plus (h :: l :: rest)
  | b :: rest =>
    (if b = 43 then 32 else b) :: unquote_plus rest

/-- `urlencode` of the single pair mapping key `q` to the question
(src/app.py line 96). -/
def urlencode_q (question : Bytes) : Bytes :=
  strBytes "q=" ++ quote_plus question

/-- The inbound HTTP request, restricted to what `ask` reads: the optional
`q` and `ref` query parameters (already percent-decoded by `request.args`)
and `request.host_url`. -/
structure HttpRequest where
  q : Option Bytes
  ref : Option Bytes
  host_url : Bytes
deriving DecidableEq

/-- Arguments passed to `render_template` (src/app.py lines 89, 99-105,
109-115); a keyword not passed at all is modelled as `none`. -/
structure Rendering where
  question : Option Bytes
  answer : Option Bytes
  share_url : Option Bytes
  error : Option Bytes
deriving DecidableEq

/-- Python truthiness fallback `a or b` for an optional string `a`:
`None` and the empty string both fall through to `b`. -/
def pyOr (a : Option Bytes) (b : Bytes) : Bytes :=
  match a with
  | some s => if s = [] then b else s
  | none => b

/-- Resolution of the question from the request (src/app.py line 85):
`request.args.get('q') or request.args.get('ref', '')`. -/
def resolveQuestion (req : HttpRequest) : Bytes :=
  pyOr req.q (req.ref.getD [])

/-- The `ask` route handler (src/app.py lines 76-115), paired with the list
of outbound chat-completion requests it issues.  An empty resolved question
short-circuits to the bare form with no outbound call (lines 88-89); a
non-empty one issues exactly one call, and renders either the answer with a
share URL (lines 91-105) or the caught error message (lines 106-115). -/
def ask (req : HttpRequest) (outcome : RemoteOutcome) :
    Rendering × List ChatRequest :=
  let question := resolveQuestion req
  if question = [] then
    (⟨none, none, none, none⟩, [])
  else
    match get_chatgpt_answer question outcome with
    | .ok answer =>
      (⟨some question, some answer,
        some (req.host_url ++ strBytes "?" ++ urlencode_q question), none⟩,
       [chatRequest question])
    | .error e =>
      (⟨some question, none, none, some e⟩, [chatRequest question])

/-- Startup API-key validation (src/app.py lines 21-26): `os.getenv` yields
`none` when the variable is unset; `if not api_key` raises `ValueError` for
an unset or empty key; otherwise the key is installed as `openai.api_key`,
modelled as the `ok` payload. -/
def startupApiKey (envKey : Option Bytes) : Except Bytes Bytes :=
  match envKey with
  | some k => if k = [] then .error missingKeyMsg else .ok k
  | none => .error missingKeyMsg

/-- Decoding a hex digit produced by `hexDigit` recovers the value. -/
theorem hexVal_hexDigit : ∀ n, n < 16 → hexVal (hexDigit n) = some n := by
  decide

/-- A safe byte is neither the `+` byte 43 nor the `%` byte 37. -/
theorem isSafeByte_ne (b : Nat) (h : isSafeByte b = true) : b ≠ 43 ∧ b ≠ 37 := by
  constructor <;> intro hb <;> subst hb <;> exact absurd h (by decide)

/-- Decoding a leading `+` byte yields a space and continues. -/
theorem unquote_plus_cons_plus (xs : Bytes) :
    unquote_plus (43 :: xs) = 32 :: unquote_plus xs := by
  match xs with
  | [] => rfl
  | [x] => simp [unquote_plus]
  | h :: l :: rest => simp [unquote_plus]

/-- Decoding a leading byte that is neither `+` nor `%` keeps it and continues. -/
theorem unquote_plus_cons_other (b : Nat) (xs : Bytes) (h43 : b ≠ 43) (h37 : b ≠ 37) :
    unquote_plus (b :: xs) = b :: unquote_plus xs := by
  match xs with
  | [] => simp [unquote_plus, h43]
  | [x] => simp [unquote_plus, h43]
  | h :: l :: rest => simp [unquote_plus, h43, h37]

/-- Decoding a leading percent escape made of two produced hex digits yields
the encoded byte and continues. -/
theorem unquote_plus_cons_pct (hi lo : Nat) (hhi : hi < 16) (hlo : lo < 16) (xs : Bytes) :
    unquote_plus (37 :: hexDigit hi :: hexDigit lo :: xs) =
      (16 * hi + lo) :: unquote_plus xs := by
  simp [unquote_plus, hexVal_hexDigit hi hhi, hexVal_hexDigit lo hlo]

/-- `unquote_plus` is a left inverse of `quote_plus` on byte sequences. -/
theorem unquote_plus_quote_plus (bs : Bytes) (h : ∀ b ∈ bs, b < 256) :
    unquote_plus (quote_plus bs) = bs := by
  induction bs with
  | nil => rfl
  | cons b rest ih =>
    have hb : b < 256 := h b (List.mem_cons_self _ _)
    have hrest : ∀ x ∈ rest, x < 256 := fun x hx => h x (List.mem_cons_of_mem _ hx)
    by_cases h32 : b = 32
    · subst h32
      have hq : quote_plus (32 :: rest) = 43 :: quote_plus rest := by
        simp [quote_plus]
      rw [hq, unquote_plus_cons_plus, ih hrest]
    · by_cases hsafe : isSafeByte b = true
      · obtain ⟨h43, h37⟩ := isSafeByte_ne b hsafe
        have hq : quote_plus (b :: rest) = b :: quote_plus rest := by
          simp [quote_plus, h32, hsafe]
        rw [hq, unquote_plus_cons_other b _ h43 h37, ih hrest]
      · have hq : quote_plus (b :: rest) =
            37 :: hexDigit (b / 16) :: hexDigit (b % 16) :: quote_plus rest := by
          simp [quote_plus, h32, hsafe]
        rw [hq, unquote_plus_cons_pct (b / 16) (b % 16) (by omega) (by omega),
          ih hrest, Nat.div_add_mod]

/-- C1: for every non-empty question, a successful remote call yields a
rendering carrying exactly that question, the first completion text
unmodified as the answer, no error, and a share URL whose query string is
the key `q` with the percent-encoded question, which decodes back to the
original question. -/
theorem C1_success_rendering (req : HttpRequest) (question answer : Bytes)
    (hq : resolveQuestion req = question) (hne : question ≠ [])
    (hbytes : ∀ b ∈ question, b < 256) :
    (ask req (RemoteOutcome.success answer)).1 =
      ⟨some question, some answer,
       some (req.host_url ++ strBytes "?" ++ urlencode_q question), none⟩
    ∧ urlencode_q question = strBytes "q=" ++ quote_plus question
    ∧ unquote_plus (quote_plus question) = question := by
  subst hq
  refine ⟨?_, rfl, unquote_plus_quote_plus _ hbytes⟩
  simp [ask, hne, get_chatgpt_answer]

/-- Witness for C1 at the concrete question `hi`. -/
theorem C1_success_rendering_witness :
    (ask ⟨some (strBytes "hi"), none, strBytes "h/"⟩
        (RemoteOutcome.success (strBytes "ok"))).1 =
      ⟨some (strBytes "hi"), some (strBytes "ok"),
       some (strBytes "h/" ++ strBytes "?" ++ urlencode_q (strBytes "hi")), none⟩
    ∧ urlencode_q (strBytes "hi") = strBytes "q=" ++ quote_plus (strBytes "hi")
    ∧ unquote_plus (quote_plus (strBytes "hi")) = strBytes "hi" :=
  C1_success_rendering ⟨some (strBytes "hi"), none, strBytes "h/"⟩
    (strBytes "hi") (strBytes "ok") (by decide) (by decide) (by decide)

/-- C2 counterexample: at a concrete request failing with a connection
error, the error text is not the message "Unable to connect to AI API.
Please check your internet connection." claimed by the spec (the code says
"OpenAI API", src/app.py line 70). -/
theorem C2_counterexample :
    (ask ⟨some (strBytes "hi"), none, strBytes "h/"⟩
        (RemoteOutcome.apiConnectionError (strBytes "boom"))).1.error ≠
      some (strBytes
        "Unable to connect to AI API. Please check your internet connection.") := by
  decide

/-- C2 amended: a connection failure renders the question with no answer,
no share URL, and exactly the fixed message "Unable to connect to OpenAI
API. Please check your internet connection."; the provider detail never
reaches the rendering. -/
theorem C2_connection_error (req : HttpRequest) (detail : Bytes)
    (hne : resolveQuestion req ≠ []) :
    (ask req (RemoteOutcome.apiConnectionError detail)).1 =
      ⟨some (resolveQuestion req), none, none, some connectionMsg⟩ := by
  simp [ask, hne, get_chatgpt_answer]

/-- Witness for the amended C2 at a concrete request. -/
theorem C2_connection_error_witness :
    (ask ⟨some (strBytes "hi"), none, strBytes "h/"⟩
        (RemoteOutcome.apiConnectionError (strBytes "boom"))).1 =
      ⟨some (resolveQuestion ⟨some (strBytes "hi"), none, strBytes "h/"⟩),
       none, none, some connectionMsg⟩ :=
  C2_connection_error ⟨some (strBytes "hi"), none, strBytes "h/"⟩
    (strBytes "boom") (by decide)

/-- C3: whatever way the remote call fails, the rendered error is one of
the four fixed user-facing messages; no provider detail appears. -/
theorem C3_generic_errors (req : HttpRequest) (outcome : RemoteOutcome)
    (hne : resolveQuestion req ≠ [])
    (hfail : ∀ a, outcome ≠ RemoteOutcome.success a) :
    (ask req outcome).1.error = some rateLimitMsg ∨
    (ask req outcome).1.error = some authFailedMsg ∨
    (ask req outcome).1.error = some connectionMsg ∨
    (ask req outcome).1.error = some unknownMsg := by
  cases outcome with
  | success a => exact absurd rfl (hfail a)
  | rateLimitError d =>
    exact Or.inl (by simp [ask, hne, get_chatgpt_answer])
  | authenticationError d =>
    exact Or.inr (Or.inl (by simp [ask, hne, get_chatgpt_answer]))
  | apiConnectionError d =>
    exact Or.inr (Or.inr (Or.inl (by simp [ask, hne, get_chatgpt_answer])))
  | otherError d =>
    exact Or.inr (Or.inr (Or.inr (by simp [ask, hne, get_chatgpt_answer])))

/-- Witness for C3 at a concrete unexpected failure. -/
theorem C3_generic_errors_witness :
    (ask ⟨some (strBytes "hi"), none, strBytes "h/"⟩
        (RemoteOutcome.otherError (strBytes "trace"))).1.error = some rateLimitMsg ∨
    (ask ⟨some (strBytes "hi"), none, strBytes "h/"⟩
        (RemoteOutcome.otherError (strBytes "trace"))).1.error = some authFailedMsg ∨
    (ask ⟨some (strBytes "hi"), none, strBytes "h/"⟩
        (RemoteOutcome.otherError (strBytes "trace"))).1.error = some connectionMsg ∨
    (ask ⟨some (strBytes "hi"), none, strBytes "h/"⟩
        (RemoteOutcome.otherError (strBytes "trace"))).1.error = some unknownMsg :=
  C3_generic_errors ⟨some (strBytes "hi"), none, strBytes "h/"⟩
    (RemoteOutcome.otherError (strBytes "trace")) (by decide)
    (fun a h => by cases h)

/-- C4: when both the `q` and `ref` parameters are absent or empty, no
outbound call is issued and the handler renders the bare form with no
question, no answer and no error. -/
theorem C4_empty_question (req : HttpRequest) (outcome : RemoteOutcome)
    (hq : req.q = none ∨ req.q = some [])
    (href : req.ref = none ∨ req.ref = some []) :
    ask req outcome = (⟨none, none, none, none⟩, []) := by
  have hres : resolveQuestion req = [] := by
    rcases hq with h | h <;> rcases href with h2 | h2 <;>
      simp [resolveQuestion, pyOr, h, h2]
  simp [ask, hres]

/-- Witness for C4 at a concrete parameterless request. -/
theorem C4_empty_question_witness :
    ask ⟨none, none, strBytes "h/"⟩ (RemoteOutcome.success (strBytes "ok")) =
      (⟨none, none, none, none⟩, []) :=
  C4_empty_question ⟨none, none, strBytes "h/"⟩
    (RemoteOutcome.success (strBytes "ok")) (Or.inl rfl) (Or.inl rfl)

/-- C5: percent-encoding a question as on the success path and
re-submitting the decoded value as the `q` parameter of a new request
resolves to a question identical to the original. -/
theorem C5_roundtrip (question host_url : Bytes)
    (h : ∀ b ∈ question, b < 256) :
    resolveQuestion
        ⟨some (unquote_plus (quote_plus question)), none, host_url⟩ = question
    ∧ unquote_plus (quote_plus question) = question := by
  have hr := unquote_plus_quote_plus question h
  refine ⟨?_, hr⟩
  rcases eq_or_ne question [] with hq | hq
  · subst hq
    simp [resolveQuestion, pyOr, hr]
  · simp [resolveQuestion, pyOr, hr, hq]

/-- Witness for C5 at the concrete question `a b` (which needs escaping). -/
theorem C5_roundtrip_witness :
    resolveQuestion
        ⟨some (unquote_plus (quote_plus (strBytes "a b"))), none,
         strBytes "h/"⟩ = strBytes "a b"
    ∧ unquote_plus (quote_plus (strBytes "a b")) = strBytes "a b" :=
  C5_roundtrip (strBytes "a b") (strBytes "h/") (by decide)

/-- C6 counterexample: at a concrete request, the system turn of the
outbound call is not the text "You are a helpful assistant" claimed by the
spec (the code sends "You are a helpful assistant." with a final period,
src/app.py line 53). -/
theorem C6_counterexample :
    ((ask ⟨some (strBytes "hi"), none, strBytes "h/"⟩
          (RemoteOutcome.success (strBytes "ok"))).2.map
        (fun r => r.messages.map ChatMessage.content)) ≠
      [[strBytes "You are a helpful assistant", strBytes "hi"]] := by
  decide

/-- C6 amended: for every non-empty question, the handler issues exactly
one outbound chat-completion call, with the system instruction "You are a
helpful assistant." followed by the question as the user turn, a 500-token
output bound and temperature 0.7, for every outcome (so nothing is ever
retried). -/
theorem C6_single_call (req : HttpRequest) (outcome : RemoteOutcome)
    (hne : resolveQuestion req ≠ []) :
    (ask req outcome).2 =
      [⟨OPENAI_MODEL,
        [⟨strBytes "system", strBytes "You are a helpful assistant."⟩,
         ⟨strBytes "user", resolveQuestion req⟩], 500, 7/10⟩] := by
  cases outcome <;> simp [ask, hne, get_chatgpt_answer, chatRequest]

/-- Witness for the amended C6 at a concrete failing request. -/
theorem C6_single_call_witness :
    (ask ⟨some (strBytes "hi"), none, strBytes "h/"⟩
        (RemoteOutcome.rateLimitError (strBytes "boom"))).2 =
      [⟨OPENAI_MODEL,
        [⟨strBytes "system", strBytes "You are a helpful assistant."⟩,
         ⟨strBytes "user",
          resolveQuestion ⟨some (strBytes "hi"), none, strBytes "h/"⟩⟩],
        500, 7/10⟩] :=
  C6_single_call ⟨some (strBytes "hi"), none, strBytes "h/"⟩
    (RemoteOutcome.rateLimitError (strBytes "boom")) (by decide)

/-- C7: a rate-limit failure renders the question with no answer, no share
URL, and exactly the fixed message "API rate limit exceeded. Please try
again later."; the provider detail never reaches the rendering. -/
theorem C7_rate_limit_error (req : HttpRequest) (detail : Bytes)
    (hne : resolveQuestion req ≠ []) :
    (ask req (RemoteOutcome.rateLimitError detail)).1 =
      ⟨some (resolveQuestion req), none, none, some rateLimitMsg⟩ := by
  simp [ask, hne, get_chatgpt_answer]

/-- Witness for C7 at a concrete request. -/
theorem C7_rate_limit_error_witness :
    (ask ⟨some (strBytes "hi"), none, strBytes "h/"⟩
        (RemoteOutcome.rateLimitError (strBytes "boom"))).1 =
      ⟨some (resolveQuestion ⟨some (strBytes "hi"), none, strBytes "h/"⟩),
       none, none, some rateLimitMsg⟩ :=
  C7_rate_limit_error ⟨some (strBytes "hi"), none, strBytes "h/"⟩
    (strBytes "boom") (by decide)

/-- C8: an authentication failure renders the question with no answer, no
share URL, and exactly the fixed message "API authentication failed.
Please check your API key." -/
theorem C8_auth_error (req : HttpRequest) (detail : Bytes)
    (hne : resolveQuestion req ≠ []) :
    (ask req (RemoteOutcome.authenticationError detail)).1 =
      ⟨some (resolveQuestion req), none, none, some authFailedMsg⟩ := by
  simp [ask, hne, get_chatgpt_answer]

/-- Witness for C8 at a concrete request. -/
theorem C8_auth_error_witness :
    (ask ⟨some (strBytes "hi"), none, strBytes "h/"⟩
        (RemoteOutcome.authenticationError (strBytes "boom"))).1 =
      ⟨some (resolveQuestion ⟨some (strBytes "hi"), none, strBytes "h/"⟩),
       none, none, some authFailedMsg⟩ :=
  C8_auth_error ⟨some (strBytes "hi"), none, strBytes "h/"⟩
    (strBytes "boom") (by decide)

/-- C9: startup with the API key variable unset, or set to the empty
string, fails with the fatal missing-key error; with a non-empty key it
succeeds and installs exactly that key. -/
theorem C9_startup_key (k : Bytes) (hk : k ≠ []) :
    startupApiKey none = Except.error missingKeyMsg
    ∧ startupApiKey (some []) = Except.error missingKeyMsg
    ∧ startupApiKey (some k) = Except.ok k := by
  refine ⟨rfl, rfl, ?_⟩
  simp [startupApiKey, hk]

/-- Witness for C9 at a concrete key. -/
theorem C9_startup_key_witness :
    startupApiKey none = Except.error missingKeyMsg
    ∧ startupApiKey (some []) = Except.error missingKeyMsg
    ∧ startupApiKey (some (strBytes "sk-test")) =
        Except.ok (strBytes "sk-test") :=
  C9_startup_key (strBytes "sk-test") (by decide)

/-- C10: when `q` is present but empty and `ref` is non-empty, the `ref`
value is used as the question, the single outbound call carries it, and the
share URL still encodes it under the key `q`. -/
theorem C10_ref_fallback (req : HttpRequest) (r answer : Bytes)
    (hq : req.q = some []) (href : req.ref = some r) (hne : r ≠ []) :
    resolveQuestion req = r
    ∧ (ask req (RemoteOutcome.success answer)).1.question = some r
    ∧ (ask req (RemoteOutcome.success answer)).2 = [chatRequest r]
    ∧ (ask req (RemoteOutcome.success answer)).1.share_url =
        some (req.host_url ++ strBytes "?" ++ (strBytes "q=" ++ quote_plus r)) := by
  have hres : resolveQuestion req = r := by
    simp [resolveQuestion, pyOr, hq, href]
  refine ⟨hres, ?_, ?_, ?_⟩ <;>
    simp [ask, hres, hne, get_chatgpt_answer, urlencode_q]

/-- Witness for C10 at the concrete `ref` question `why`. -/
theorem C10_ref_fallback_witness :
    resolveQuestion ⟨some [], some (strBytes "why"), strBytes "h/"⟩ = strBytes "why"
    ∧ (ask ⟨some [], some (strBytes "why"), strBytes "h/"⟩
          (RemoteOutcome.success (strBytes "ok"))).1.question = some (strBytes "why")
    ∧ (ask ⟨some [], some (strBytes "why"), strBytes "h/"⟩
          (RemoteOutcome.success (strBytes "ok"))).2 = [chatRequest (strBytes "why")]
    ∧ (ask ⟨some [], some (strBytes "why"), strBytes "h/"⟩
          (RemoteOutcome.success (strBytes "ok"))).1.share_url =
        some (strBytes "h/" ++ strBytes "?" ++
          (strBytes "q=" ++ quote_plus (strBytes "why"))) :=
  C10_ref_fallback ⟨some [], some (strBytes "why"), strBytes "h/"⟩
    (strBytes "why") (strBytes "ok") rfl rfl (by decide)

end Lmacfy
